/-
Verification of the ALI Blake nightly performance-report pipeline
(`ali/blake_nightly_data/email_report.py`).

Modelling conventions:
* Timing samples are rationals (ℚ): the Python code computes with float64,
  but the spec's arithmetic is exact; all concrete inputs used here are
  exactly representable and all intermediate quantities stay rational.
* `np.mean` over a list is `npMean`; `np.std` is the population standard
  deviation, i.e. `Real.sqrt` of `npStdSq` (the population variance).  To
  keep every definition executable we carry the variance `npStdSq`
  (a rational) through the pipeline and render the source's comparison
  `abs(x - mu) < stdCoeff * sig` exactly as the decidable rational
  predicate `ltCoeffStdSq (x - mu) stdCoeff sig_sq`; the lemma
  `ltCoeffStdSq_iff_real` proves this rendering equivalent to the real
  inequality `|x - mu| < stdCoeff * Real.sqrt sig_sq`.
* Python exceptions are modelled by `Option`: a computation that raises
  returns `none`.
* Python's insertion-ordered `dict` is modelled by an association list in
  insertion order; faithfulness requires the keys to be distinct, which
  holds for distinct configured case names (the report invariant).
-/
import Mathlib

namespace EmailReport

/-- The classification a performance test can produce. -/
inductive Status where
  | pass : Status
  | warn : Status
  | fail : Status
deriving DecidableEq

/-- The tuple `status, wt[-1], mu, sig` returned by `simple_perf_test`,
with the standard deviation carried as its square `stdSq` (the population
variance), so `sig = Real.sqrt stdSq`. -/
structure PerfResult where
  status : Status
  measured : ℚ
  mean : ℚ
  stdSq : ℚ
deriving DecidableEq

/-- `np.mean(wt)`: the arithmetic mean of the samples.  (On an empty list
this is `0/0 = 0`; numpy returns NaN there, but the empty case is cut off
by `simple_perf_test` returning `none` before the mean is used.) -/
def npMean (wt : List ℚ) : ℚ :=
  wt.sum / wt.length

/-- `np.std(wt) ** 2`: the population variance, mean of squared deviations
from the mean over the entire series. -/
def npStdSq (wt : List ℚ) : ℚ :=
  ((wt.map fun x => (x - npMean wt) ^ 2).sum) / wt.length

/-- The source's comparison `abs d < c * sig` where `sig = Real.sqrt v`,
rendered exactly over ℚ: it holds iff `c` is nonnegative and `d ^ 2 < c ^ 2 * v`.
`ltCoeffStdSq_iff_real` proves the equivalence with the real inequality. -/
def ltCoeffStdSq (d c v : ℚ) : Prop :=
  0 ≤ c ∧ d ^ 2 < c ^ 2 * v

instance (d c v : ℚ) : Decidable (ltCoeffStdSq d c v) := by
  unfold ltCoeffStdSq; exact instDecidableAnd

/--
```
def simple_perf_test(wtimes, stdCoeff = 2.0):
    wt = np.asarray(wtimes, dtype=np.float64)
    mu = np.mean(wt)
    sig = np.std(wt)
    if abs(wt[-1] - mu) < stdCoeff*sig:
        status = 'pass'
    elif abs(wt[-2] - mu) < stdCoeff*sig:
        status = 'warn'
    else:
        status = 'fail'
    return status, wt[-1], mu, sig
```
`wt[-1]` is the head of `wtimes.reverse`, `wt[-2]` the second element.
On an empty series `wt[-1]` raises IndexError (`none`); on a singleton the
`elif` reads `wt[-2]` and raises IndexError, unless the first branch was
taken — which it never is on a singleton, since there `abs(wt[-1]-mu) = 0`,
`sig = 0` and `0 < stdCoeff*0` is false; the `if` is kept to mirror the
control flow faithfully. -/
def simple_perf_test (wtimes : List ℚ) (stdCoeff : ℚ) : Option PerfResult :=
  let mu := npMean wtimes
  let sigSq := npStdSq wtimes
  match wtimes.reverse with
  | [] => none
  | [last] =>
      if ltCoeffStdSq (last - mu) stdCoeff sigSq then
        some ⟨Status.pass, last, mu, sigSq⟩
      else
        none
  | last :: prev :: _ =>
      if ltCoeffStdSq (last - mu) stdCoeff sigSq then
        some ⟨Status.pass, last, mu, sigSq⟩
      else if ltCoeffStdSq (prev - mu) stdCoeff sigSq then
        some ⟨Status.warn, last, mu, sigSq⟩
      else
        some ⟨Status.fail, last, mu, sigSq⟩

/-! ### Aggregator: `build_perf_tests`

The external collaborators are abstracted as functions:
`runOutcome case nps` is the last entry of the `status` list returned by
`json2status(files, case, nps)` (the source only reads `status[-1]`), and
`seriesSource case nps timer` is the `wtimes` list returned by
`json2timeline(files, case, nps, timer, False)`. -/

/-- A cell color of the report. -/
inductive Color where
  | green : Color
  | yellow : Color
  | red : Color
deriving DecidableEq

/-- `colorMap = {'pass':'green','warn':'yellow','fail':'red'}`. -/
def colorMap : Status → Color
  | Status.pass => Color.green
  | Status.warn => Color.yellow
  | Status.fail => Color.red

/-- The per-timer entry `timerDict`. -/
structure TimerDict where
  measured : ℚ
  mean : ℚ
  stdSq : ℚ
  perfTestColor : Color
deriving DecidableEq

/-- The per-case entry `testDict`.  In the source the failed branch never
creates the `'timers'` key: that absent key is `timers = none`. -/
structure CaseDict where
  runTest : String
  runTestColor : Color
  timers : Option (List (String × TimerDict))
  perfTests : String
  perfTestsColor : Color
deriving DecidableEq

/-- `colorCounter = {'green':0,'yellow':0,'red':0}`. -/
structure ColorCounter where
  green : ℕ
  yellow : ℕ
  red : ℕ
deriving DecidableEq

/-- `colorCounter[color] = colorCounter[color] + 1`. -/
def ColorCounter.incr (c : ColorCounter) : Color → ColorCounter
  | Color.green => { c with green := c.green + 1 }
  | Color.yellow => { c with yellow := c.yellow + 1 }
  | Color.red => { c with red := c.red + 1 }

/-- The timer loop of `build_perf_tests`: for each timer, run
`simple_perf_test(wtimes, 2.0)` on its series and record
measured/mean/std and the mapped color, in configured order.  A raising
`simple_perf_test` (series shorter than 2) aborts the whole run (`none`),
as the uncaught exception does in the source. -/
def processTimers (seriesSource : String → ℕ → String → List ℚ)
    (case : String) (nps : ℕ) : List String → Option (List (String × TimerDict))
  | [] => some []
  | t :: ts => do
      let r ← simple_perf_test (seriesSource case nps t) 2
      let rest ← processTimers seriesSource case nps ts
      return (t, ⟨r.measured, r.mean, r.stdSq, colorMap r.status⟩) :: rest

/-- `colorCounter` after the timer loop: tally of the timer colors. -/
def tally (tds : List (String × TimerDict)) : ColorCounter :=
  tds.foldl (fun c p => c.incr p.2.perfTestColor) ⟨0, 0, 0⟩

/-- `'{}/{}/{}'.format(colorCounter['green'],colorCounter['yellow'],colorCounter['red'])`. -/
def ColorCounter.format (c : ColorCounter) : String :=
  toString c.green ++ "/" ++ toString c.yellow ++ "/" ++ toString c.red

/-- The body of the case loop of `build_perf_tests`: one `(name, testDict)`
entry.  `name = case + '_np' + str(nps)`.  Python's `if colorCounter['red']:`
is truthiness of a count, i.e. `≠ 0`. -/
def processCase (runOutcome : String → ℕ → Bool)
    (seriesSource : String → ℕ → String → List ℚ)
    (nps : ℕ) (timers : List String) (case : String) :
    Option (String × CaseDict) :=
  let name := case ++ "_np" ++ toString nps
  if runOutcome case nps then do
    let tds ← processTimers seriesSource case nps timers
    let cnt := tally tds
    let ptColor :=
      if cnt.red ≠ 0 then Color.red
      else if cnt.yellow ≠ 0 then Color.yellow
      else Color.green
    return (name, ⟨"Passed", Color.green, some tds, cnt.format, ptColor⟩)
  else
    some (name, ⟨"Failed", Color.red, none, "Failed", Color.red⟩)

/-- `build_perf_tests(files, cases, nps, timers)`: the insertion-ordered
`perfTests` dict, as an association list in case order. -/
def build_perf_tests (runOutcome : String → ℕ → Bool)
    (seriesSource : String → ℕ → String → List ℚ)
    (cases : List String) (nps : ℕ) (timers : List String) :
    Option (List (String × CaseDict)) :=
  match cases with
  | [] => some []
  | case :: rest => do
      let entry ← processCase runOutcome seriesSource nps timers case
      let tail ← build_perf_tests runOutcome seriesSource rest nps timers
      return entry :: tail

/-! ### Renderer: `build_perf_tests_html`

A pure function of the report (plus today's date string, used only in the
links).  CSS braces are text, written `\x7b`/`\x7d`.  The `{:g}` float
formatting of the source is modelled by `toString` on ℚ; this affects only
the text of table cells, never the structure or the subject. -/

/-- The `'green' / 'yellow' / 'red'` strings used as HTML id attributes. -/
def colorId : Color → String
  | Color.green => "green"
  | Color.yellow => "yellow"
  | Color.red => "red"

/-- The `<style>` block. -/
def styleBlock : String :=
  "\n    <style>\n        table,th,td\n        \x7b\n            border: 2px solid black;\n            text-align: center;\n        \x7d\n        table\n        \x7b\n            border-collapse: collapse;\n            width: 90%;\n        \x7d\n        th\n        \x7b\n            color: white;\n            background-color: gray;\n        \x7d\n        td\n        \x7b\n            height: 40px;\n        \x7d\n        tr:nth-child(even)\n        \x7b\n            background-color: #D0D0D0;\n        \x7d\n        tr:nth-child(odd)\n        \x7b\n            background-color: #F0F0F0;\n        \x7d\n        #green\n        \x7b\n            background-color: green;\n            color: white;\n        \x7d\n        #yellow\n        \x7b\n            background-color: yellow;\n        \x7d\n        #red\n        \x7b\n            background-color: red;\n            color: white;\n        \x7d\n    </style>\n    "

/-- The report title. -/
def titleBlock : String :=
  "\n    <font size=\"+2\"><b>Albany Land Ice Performance Status Report on Blake</b></font>\n    <br><br>\n    "

/-- The header of the status table. -/
def statusTabHeader : String :=
  "\n    <table>\n        <caption><font size=\"+2\"><b>Status</b></font></caption>\n        <tr>\n            <th>Name</th>\n            <th>Run Test</th>\n            <th>Performance Tests (Passes/Warnings/Fails)</th>\n        </tr>\n    "

/-- One row of the status table. -/
def statusRow (name : String) (info : CaseDict) : String :=
  "\n        <tr>\n            <td>" ++ name ++ "</td>\n            <td id=\"" ++
    colorId info.runTestColor ++ "\">" ++ info.runTest ++
    "</td>\n            <td id=\"" ++ colorId info.perfTestsColor ++ "\">" ++
    info.perfTests ++ "</td>\n        </tr>\n        "

/-- The row-accumulation loop `statusTab = statusTab + row`. -/
def statusTabBody (perfTests : List (String × CaseDict)) : String :=
  perfTests.foldl (fun acc p => acc ++ statusRow p.1 p.2) ""

/-- The `'{} test failed...'` notice emitted for a failed case. -/
def failNotice (name : String) : String :=
  "\n            <br><br>\n            <font size=\"+1\">" ++ name ++
    " test failed...</font>\n            "

/-- The caption and header of one case's timer table. -/
def timerTabHeader (name : String) : String :=
  "\n            <br><br>\n            <table>\n                <caption><font size=\"+2\"><b>" ++
    name ++ " Timers (s)</b></caption></font>\n                <tr>\n                    <th>Timer</th>\n                    <th>Measured</th>\n                    <th>Mean</th>\n                    <th>Std</th>\n                </tr>\n            "

/-- One row of a timer table (`Std` renders `sig`; the model carries
`stdSq = sig ** 2`, rendered as its own text). -/
def timerRow (timer : String) (ti : TimerDict) : String :=
  "\n                <tr>\n                    <td>" ++ timer ++
    "</td>\n                    <td id=\"" ++ colorId ti.perfTestColor ++ "\">" ++
    toString ti.measured ++ "</td>\n                    <td>" ++ toString ti.mean ++
    "</td>\n                    <td>" ++ toString ti.stdSq ++
    "</td>\n                </tr>\n                "

/-- One case's block in the subject-and-timer-tables loop: the flag
contribution to `subjectTestsFailed` and the emitted text.  A failed case
sets the flag and emits the notice; a ran case emits its timer table and
sets the flag iff some row's `perfTestColor` is red. -/
def caseTab (name : String) (info : CaseDict) : Bool × String :=
  if info.runTest == "Failed" then
    (true, failNotice name)
  else
    let tds := info.timers.getD []
    (tds.any fun p => p.2.perfTestColor == Color.red,
      timerTabHeader name ++
        tds.foldl (fun acc p => acc ++ timerRow p.1 p.2) "" ++
        "\n            </table>\n            ")

/-- The subject-and-timer-tables loop: `subjectTestsFailed` starts false and
is OR-accumulated; `timerTabs` starts empty and is appended in report
order. -/
def timerTabsLoop : List (String × CaseDict) → Bool × String
  | [] => (false, "")
  | (name, info) :: rest =>
      let here := caseTab name info
      let later := timerTabsLoop rest
      (here.1 || later.1, here.2 ++ later.2)

/-- The links block; `today` is `datetime.datetime.today().strftime('%m_%d_%Y')`. -/
def linksBlock (today : String) : String :=
  "\n    <br>\n    Click <a href=\"https://my.cdash.org/index.php?subproject=IKTBlakeALIPerformTests&project=Albany\">here</a> for test logs, <a href=\"https://ikalash.github.io/ali/blake_nightly_data/Ali_PerfTestsBlake_" ++
    today ++
    ".html\">here</a> for more details on performance or <a href=\"https://mybinder.org/v2/gh/ikalash/ikalash.github.io/master?filepath=ali/blake_nightly_data%2FAli_PerfTestsBlake.ipynb\">here</a> for an interactive notebook of the data.\n    "

/-- `build_perf_tests_html(perfTests)`: the `(subject, html)` pair. -/
def build_perf_tests_html (today : String)
    (perfTests : List (String × CaseDict)) : String × String :=
  let statusTab := statusTabHeader ++ statusTabBody perfTests ++ "\n    </table>\n    "
  let flagAndTabs := timerTabsLoop perfTests
  let subject :=
    if flagAndTabs.1 then "[ALIPerfTestsFailed] " ++ "Albany Land Ice Performance Tests"
    else "[ALIPerfTestsPassed] " ++ "Albany Land Ice Performance Tests"
  (subject,
    styleBlock ++ titleBlock ++ statusTab ++ flagAndTabs.2 ++ linksBlock today)

/-! ### Basic lemmas about the classifier -/

/-- The population variance is nonnegative. -/
theorem npStdSq_nonneg (wt : List ℚ) : 0 ≤ npStdSq wt := by
  unfold npStdSq
  apply div_nonneg
  · apply List.sum_nonneg
    intro x hx
    obtain ⟨y, _, rfl⟩ := List.mem_map.mp hx
    positivity
  · positivity

/-- The rational predicate `ltCoeffStdSq d c v` is exactly the real
inequality `|d| < c * Real.sqrt v` from the source (for `v ≥ 0`, which the
variance always satisfies). -/
theorem ltCoeffStdSq_iff_real (d c v : ℚ) (hv : 0 ≤ v) :
    ltCoeffStdSq d c v ↔ |(d : ℝ)| < (c : ℝ) * Real.sqrt (v : ℝ) := by
  unfold ltCoeffStdSq
  rcases le_or_lt 0 c with hc | hc
  · have hc' : (0 : ℝ) ≤ (c : ℝ) := by exact_mod_cast hc
    have hv' : (0 : ℝ) ≤ (v : ℝ) := by exact_mod_cast hv
    have hrhs : (0 : ℝ) ≤ (c : ℝ) * Real.sqrt (v : ℝ) :=
      mul_nonneg hc' (Real.sqrt_nonneg _)
    constructor
    · rintro ⟨-, hlt⟩
      have hlt' : ((d : ℝ)) ^ 2 < ((c : ℝ)) ^ 2 * (v : ℝ) := by exact_mod_cast hlt
      have hsq : |(d : ℝ)| ^ 2 < ((c : ℝ) * Real.sqrt (v : ℝ)) ^ 2 := by
        calc |(d : ℝ)| ^ 2 = (d : ℝ) ^ 2 := sq_abs _
        _ < (c : ℝ) ^ 2 * (v : ℝ) := hlt'
        _ = ((c : ℝ) * Real.sqrt (v : ℝ)) ^ 2 := by
            rw [mul_pow, Real.sq_sqrt hv']
      exact lt_of_pow_lt_pow_left₀ 2 hrhs hsq
    · intro hlt
      refine ⟨hc, ?_⟩
      have hsq : |(d : ℝ)| ^ 2 < ((c : ℝ) * Real.sqrt (v : ℝ)) ^ 2 :=
        pow_lt_pow_left₀ hlt (abs_nonneg _) (by norm_num)
      have h2 : ((d : ℝ)) ^ 2 < ((c : ℝ)) ^ 2 * (v : ℝ) := by
        calc ((d : ℝ)) ^ 2 = |(d : ℝ)| ^ 2 := (sq_abs _).symm
        _ < ((c : ℝ) * Real.sqrt (v : ℝ)) ^ 2 := hsq
        _ = (c : ℝ) ^ 2 * (v : ℝ) := by rw [mul_pow, Real.sq_sqrt hv']
      exact_mod_cast h2
  · have hc' : (c : ℝ) < 0 := by exact_mod_cast hc
    constructor
    · rintro ⟨hge, -⟩
      exact absurd hge (not_le.mpr hc)
    · intro hlt
      exfalso
      have : (c : ℝ) * Real.sqrt (v : ℝ) ≤ 0 :=
        mul_nonpos_of_nonpos_of_nonneg hc'.le (Real.sqrt_nonneg _)
      exact absurd (lt_of_le_of_lt (abs_nonneg _) hlt) (not_lt.mpr this)

/-- On a series with at least two samples, `simple_perf_test` returns the
branch dictated by the two `ltCoeffStdSq` tests. -/
theorem simple_perf_test_eq_of_reverse (wt : List ℚ) (c last prev : ℚ)
    (older : List ℚ) (hw : wt.reverse = last :: prev :: older) :
    simple_perf_test wt c =
      some ⟨if ltCoeffStdSq (last - npMean wt) c (npStdSq wt) then Status.pass
            else if ltCoeffStdSq (prev - npMean wt) c (npStdSq wt) then Status.warn
            else Status.fail,
            last, npMean wt, npStdSq wt⟩ := by
  unfold simple_perf_test
  rw [hw]
  by_cases h1 : ltCoeffStdSq (last - npMean wt) c (npStdSq wt) <;>
    by_cases h2 : ltCoeffStdSq (prev - npMean wt) c (npStdSq wt) <;>
    simp [h1, h2]

/-- The mean of a constant series is that constant. -/
theorem npMean_const (wt : List ℚ) (a : ℚ) (hne : wt ≠ [])
    (ha : ∀ x ∈ wt, x = a) : npMean wt = a := by
  have hlen : (wt.length : ℚ) ≠ 0 := by
    exact_mod_cast fun h => hne (List.length_eq_zero.mp (by exact_mod_cast h))
  unfold npMean
  rw [List.sum_eq_card_nsmul wt a ha, nsmul_eq_mul, mul_comm, mul_div_assoc,
    div_self hlen, mul_one]

/-- The population variance of a constant series is zero. -/
theorem npStdSq_const (wt : List ℚ) (a : ℚ) (hne : wt ≠ [])
    (ha : ∀ x ∈ wt, x = a) : npStdSq wt = 0 := by
  unfold npStdSq
  rw [List.sum_eq_zero, zero_div]
  intro q hq
  obtain ⟨x, hx, rfl⟩ := List.mem_map.mp hq
  rw [ha x hx, npMean_const wt a hne ha, sub_self]
  ring

/-! ### Claims about the classifier -/

/-- C1: For every series of length at least 2 and threshold coefficient
`c`, `simple_perf_test` returns status pass if
`|series[-1] - mean| < c * std` (strict, with mean and std over the whole
series), otherwise warn if `|series[-2] - mean| < c * std`, otherwise
fail; the returned tuple is `(status, series[-1], mean, std)` (the std
carried as its square `npStdSq`, with `std = Real.sqrt (npStdSq wt)`).
The hypothesis `wt.reverse = last :: prev :: older` states that `wt` has
length at least 2 with final sample `last` and second-to-last `prev`. -/
theorem simple_perf_test_decision_rule (wt : List ℚ) (c last prev : ℚ)
    (older : List ℚ) (hw : wt.reverse = last :: prev :: older) :
    simple_perf_test wt c =
      some ⟨if |(last : ℝ) - (npMean wt : ℝ)| <
                (c : ℝ) * Real.sqrt (npStdSq wt : ℝ) then Status.pass
            else if |(prev : ℝ) - (npMean wt : ℝ)| <
                (c : ℝ) * Real.sqrt (npStdSq wt : ℝ) then Status.warn
            else Status.fail,
            last, npMean wt, npStdSq wt⟩ := by
  have hv := npStdSq_nonneg wt
  have h1 : ltCoeffStdSq (last - npMean wt) c (npStdSq wt) ↔
      |(last : ℝ) - (npMean wt : ℝ)| < (c : ℝ) * Real.sqrt (npStdSq wt : ℝ) := by
    rw [ltCoeffStdSq_iff_real _ _ _ hv, Rat.cast_sub]
  have h2 : ltCoeffStdSq (prev - npMean wt) c (npStdSq wt) ↔
      |(prev : ℝ) - (npMean wt : ℝ)| < (c : ℝ) * Real.sqrt (npStdSq wt : ℝ) := by
    rw [ltCoeffStdSq_iff_real _ _ _ hv, Rat.cast_sub]
  rw [simple_perf_test_eq_of_reverse wt c last prev older hw,
    if_congr h1 rfl (if_congr h2 rfl rfl)]

/-- Witness for C1 at the series `[10,10,10,10,15]` with coefficient 2. -/
theorem simple_perf_test_decision_rule_witness :
    simple_perf_test [10, 10, 10, 10, 15] 2 =
      some ⟨if |((15 : ℚ) : ℝ) - (npMean [10, 10, 10, 10, 15] : ℝ)| <
                ((2 : ℚ) : ℝ) * Real.sqrt (npStdSq [10, 10, 10, 10, 15] : ℝ) then Status.pass
            else if |((10 : ℚ) : ℝ) - (npMean [10, 10, 10, 10, 15] : ℝ)| <
                ((2 : ℚ) : ℝ) * Real.sqrt (npStdSq [10, 10, 10, 10, 15] : ℝ) then Status.warn
            else Status.fail,
            15, npMean [10, 10, 10, 10, 15], npStdSq [10, 10, 10, 10, 15]⟩ :=
  simple_perf_test_decision_rule [10, 10, 10, 10, 15] 2 15 10 [10, 10, 10] rfl

/-- C2: On the flat series `[10,10,10,10,10]` with coefficient 2 the
classifier computes mean 10 and std 0 and returns fail: the strict
comparison `0 < 0` of the boundary case is false, so the flat series falls
through pass and warn. -/
theorem flat_series_boundary_fail :
    simple_perf_test [10, 10, 10, 10, 10] 2 = some ⟨Status.fail, 10, 10, 0⟩ ∧
    Real.sqrt ((npStdSq [10, 10, 10, 10, 10] : ℚ) : ℝ) = 0 ∧
    ¬ |((10 : ℚ) : ℝ) - ((10 : ℚ) : ℝ)| <
        ((2 : ℚ) : ℝ) * Real.sqrt ((npStdSq [10, 10, 10, 10, 10] : ℚ) : ℝ) := by
  have hv : npStdSq [10, 10, 10, 10, 10] = 0 := by
    norm_num [npStdSq, npMean]
  refine ⟨?_, ?_, ?_⟩
  · norm_num [simple_perf_test, npMean, npStdSq, ltCoeffStdSq]
  · rw [hv]
    norm_num
  · rw [hv]
    norm_num

/-- C3, counterexample: on `[10,10,10,10,10,10,10,30]` with coefficient 2
the code returns warn, not the fail the claim asserts. -/
theorem spike_series_status_is_warn_not_fail :
    (simple_perf_test [10, 10, 10, 10, 10, 10, 10, 30] 2).map PerfResult.status =
      some Status.warn ∧ Status.warn ≠ Status.fail := by
  constructor
  · norm_num [simple_perf_test, npMean, npStdSq, ltCoeffStdSq]
  · simp

/-- C3, amended: on `[10,10,10,10,10,10,10,30]` with coefficient 2 the
classifier returns status warn (with measured 30, mean 12.5 and variance
43.75): the last sample is outside the `2*std` bound of the mean, but the
second-to-last sample is within it, so the spike is downgraded from fail
to warn. -/
theorem spike_series_warn_second_last_within :
    simple_perf_test [10, 10, 10, 10, 10, 10, 10, 30] 2 =
      some ⟨Status.warn, 30, 25/2, 175/4⟩ ∧
    ¬ |((30 : ℚ) : ℝ) - ((25/2 : ℚ) : ℝ)| <
        ((2 : ℚ) : ℝ) * Real.sqrt (((175/4 : ℚ)) : ℝ) ∧
    |((10 : ℚ) : ℝ) - ((25/2 : ℚ) : ℝ)| <
        ((2 : ℚ) : ℝ) * Real.sqrt (((175/4 : ℚ)) : ℝ) := by
  refine ⟨?_, ?_, ?_⟩
  · norm_num [simple_perf_test, npMean, npStdSq, ltCoeffStdSq]
  · rw [show ((30 : ℚ) : ℝ) - ((25/2 : ℚ) : ℝ) = (((30 - 25/2 : ℚ)) : ℝ) by push_cast; ring,
      ← ltCoeffStdSq_iff_real _ _ _ (by norm_num)]
    norm_num [ltCoeffStdSq]
  · rw [show ((10 : ℚ) : ℝ) - ((25/2 : ℚ) : ℝ) = (((10 - 25/2 : ℚ)) : ℝ) by push_cast; ring,
      ← ltCoeffStdSq_iff_real _ _ _ (by norm_num)]
    norm_num [ltCoeffStdSq]

/-- C5: On `[10,10,10,10,15]` with coefficient 2 the classifier computes
mean 11 and population standard deviation 2 over the entire series
(variance 4), the pass test `|15-11| < 4` is false, the warn test
`|10-11| < 4` is true, and the returned status is warn. -/
theorem spike_prev_within_warn :
    npMean [10, 10, 10, 10, 15] = 11 ∧
    npStdSq [10, 10, 10, 10, 15] = 4 ∧
    Real.sqrt ((npStdSq [10, 10, 10, 10, 15] : ℚ) : ℝ) = 2 ∧
    simple_perf_test [10, 10, 10, 10, 15] 2 = some ⟨Status.warn, 15, 11, 4⟩ ∧
    ¬ |(15 : ℝ) - 11| < 2 * 2 ∧ |(10 : ℝ) - 11| < 2 * 2 := by
  have hv : npStdSq [10, 10, 10, 10, 15] = 4 := by
    norm_num [npStdSq, npMean]
  refine ⟨by norm_num [npMean], hv, ?_, ?_, by norm_num, by norm_num⟩
  · rw [hv, show (((4 : ℚ)) : ℝ) = (2 : ℝ) ^ 2 by norm_num,
      Real.sqrt_sq (by norm_num)]
  · norm_num [simple_perf_test, npMean, npStdSq, ltCoeffStdSq]

/-- C8: `simple_perf_test` fails (raises, modelled as `none`) on every
series of length below 2, and on every series of length at least 2 it
returns a result whose status is one of pass, warn, fail. -/
theorem simple_perf_test_requires_two (wt : List ℚ) (c : ℚ) :
    (wt.length < 2 → simple_perf_test wt c = none) ∧
    (2 ≤ wt.length → ∃ r, simple_perf_test wt c = some r ∧
      (r.status = Status.pass ∨ r.status = Status.warn ∨ r.status = Status.fail)) := by
  constructor
  · intro hlen
    match wt with
    | [] => simp [simple_perf_test]
    | [x] => simp [simple_perf_test, npMean, npStdSq, ltCoeffStdSq]
    | x :: y :: t => simp at hlen; omega
  · intro hlen
    have h2 : 2 ≤ wt.reverse.length := by simpa using hlen
    rcases hw : wt.reverse with - | ⟨a, - | ⟨b, u⟩⟩
    · rw [hw] at h2; simp at h2
    · rw [hw] at h2; simp at h2
    · rw [simple_perf_test_eq_of_reverse wt c a b u hw]
      exact ⟨_, rfl, by split_ifs <;> simp⟩

/-- Witness for C8: the singleton series `[5]` raises and the pair
`[10, 11]` classifies. -/
theorem simple_perf_test_requires_two_witness :
    simple_perf_test [(5 : ℚ)] 3 = none ∧
    ∃ r, simple_perf_test [(10 : ℚ), 11] 3 = some r ∧
      (r.status = Status.pass ∨ r.status = Status.warn ∨ r.status = Status.fail) :=
  ⟨(simple_perf_test_requires_two [(5 : ℚ)] 3).1 (by norm_num),
   (simple_perf_test_requires_two [(10 : ℚ), 11] 3).2 (by norm_num)⟩

/-- C10: every series of length at least 2 whose samples are all equal has
population standard deviation zero, and `simple_perf_test` returns fail on
it for every threshold coefficient: both strict comparisons against
`c * 0 = 0` are false even though the latest sample deviates from the mean
by exactly zero. -/
theorem simple_perf_test_flat_always_fail (wt : List ℚ) (a c : ℚ)
    (hlen : 2 ≤ wt.length) (ha : ∀ x ∈ wt, x = a) :
    npStdSq wt = 0 ∧
    ∃ r, simple_perf_test wt c = some r ∧ r.status = Status.fail := by
  have hne : wt ≠ [] := by
    intro h
    rw [h] at hlen
    simp at hlen
  have hmu := npMean_const wt a hne ha
  have hv := npStdSq_const wt a hne ha
  refine ⟨hv, ?_⟩
  have h2 : 2 ≤ wt.reverse.length := by simpa using hlen
  rcases hw : wt.reverse with - | ⟨x, - | ⟨y, u⟩⟩
  · rw [hw] at h2; simp at h2
  · rw [hw] at h2; simp at h2
  · have hx : x = a := ha x (by rw [← List.mem_reverse, hw]; simp)
    have hy : y = a := ha y (by rw [← List.mem_reverse, hw]; simp)
    rw [simple_perf_test_eq_of_reverse wt c x y u hw]
    refine ⟨_, rfl, ?_⟩
    simp [hx, hy, hmu, hv, ltCoeffStdSq]

/-- Witness for C10 at the constant series `[7, 7]` with coefficient -3. -/
theorem simple_perf_test_flat_always_fail_witness :
    npStdSq [(7 : ℚ), 7] = 0 ∧
    ∃ r, simple_perf_test [(7 : ℚ), 7] (-3) = some r ∧ r.status = Status.fail :=
  simple_perf_test_flat_always_fail [(7 : ℚ), 7] 7 (-3) (by norm_num)
    (by intro x hx; simpa using hx)

/-! ### Lemmas about the aggregator -/

/-- Folding `incr` over the timer colors adds the per-color occurrence
counts to the accumulator. -/
theorem foldl_incr_counts (tds : List (String × TimerDict)) (c0 : ColorCounter) :
    List.foldl (fun c p => c.incr p.2.perfTestColor) c0 tds =
      ⟨c0.green + tds.countP (fun p => p.2.perfTestColor == Color.green),
       c0.yellow + tds.countP (fun p => p.2.perfTestColor == Color.yellow),
       c0.red + tds.countP (fun p => p.2.perfTestColor == Color.red)⟩ := by
  induction tds generalizing c0 with
  | nil => simp
  | cons p ts ih =>
    rw [List.foldl_cons, ih]
    cases hc : p.2.perfTestColor <;>
      simp [ColorCounter.incr, hc, List.countP_cons] <;> omega

/-- The timer tally is the per-color occurrence count. -/
theorem tally_eq_counts (tds : List (String × TimerDict)) :
    tally tds =
      ⟨tds.countP (fun p => p.2.perfTestColor == Color.green),
       tds.countP (fun p => p.2.perfTestColor == Color.yellow),
       tds.countP (fun p => p.2.perfTestColor == Color.red)⟩ := by
  simpa using foldl_incr_counts tds ⟨0, 0, 0⟩

/-- Every entry produced by the timer loop records the result of
`simple_perf_test` on that timer's series, with its mapped color. -/
theorem processTimers_sound (ss : String → ℕ → String → List ℚ)
    (case : String) (nps : ℕ) (timers : List String)
    (tds : List (String × TimerDict))
    (h : processTimers ss case nps timers = some tds) :
    ∀ p ∈ tds, ∃ r, simple_perf_test (ss case nps p.1) 2 = some r ∧
      p.2 = ⟨r.measured, r.mean, r.stdSq, colorMap r.status⟩ := by
  induction timers generalizing tds with
  | nil =>
    simp only [processTimers, Option.some.injEq] at h
    subst h
    simp
  | cons t ts ih =>
    simp only [processTimers, Option.bind_eq_bind] at h
    cases hr : simple_perf_test (ss case nps t) 2 with
    | none => rw [hr] at h; simp at h
    | some r =>
      rw [hr] at h
      cases hp : processTimers ss case nps ts with
      | none => rw [hp] at h; simp at h
      | some rest =>
        rw [hp] at h
        simp only [Option.some_bind, Option.pure_def, Option.some.injEq] at h
        subst h
        intro p hmem
        rcases List.mem_cons.mp hmem with hhead | htail
        · exact ⟨r, by rw [hhead]; exact hr, by rw [hhead]⟩
        · exact ih rest hp p htail

/-- Case analysis on one loop iteration of `build_perf_tests`: the entry
is keyed `case + '_np' + str(nps)` and is either the fixed failed record
or the ran record assembled from the timer loop and the tally. -/
theorem processCase_spec (ro : String → ℕ → Bool)
    (ss : String → ℕ → String → List ℚ) (nps : ℕ) (timers : List String)
    (case : String) (e : String × CaseDict)
    (h : processCase ro ss nps timers case = some e) :
    e.1 = case ++ "_np" ++ toString nps ∧
    (e.2 = ⟨"Failed", Color.red, none, "Failed", Color.red⟩ ∨
     ∃ tds, processTimers ss case nps timers = some tds ∧
       e.2 = ⟨"Passed", Color.green, some tds, (tally tds).format,
         if (tally tds).red ≠ 0 then Color.red
         else if (tally tds).yellow ≠ 0 then Color.yellow
         else Color.green⟩) := by
  by_cases hro : ro case nps = true
  · simp only [processCase, hro, if_true, Option.bind_eq_bind] at h
    cases hts : processTimers ss case nps timers with
    | none => rw [hts] at h; simp at h
    | some tds =>
      rw [hts] at h
      simp only [Option.some_bind, Option.pure_def, Option.some.injEq] at h
      subst h
      exact ⟨rfl, Or.inr ⟨tds, rfl, rfl⟩⟩
  · rw [Bool.not_eq_true] at hro
    simp only [processCase, hro, Bool.false_eq_true, if_false, Option.some.injEq] at h
    subst h
    exact ⟨rfl, Or.inl rfl⟩

/-- Every entry of a built report comes from `processCase` on one of the
configured cases. -/
theorem build_perf_tests_mem (ro : String → ℕ → Bool)
    (ss : String → ℕ → String → List ℚ) (cases : List String) (nps : ℕ)
    (timers : List String) (report : List (String × CaseDict))
    (hb : build_perf_tests ro ss cases nps timers = some report) :
    ∀ e ∈ report, ∃ case ∈ cases, processCase ro ss nps timers case = some e := by
  induction cases generalizing report with
  | nil =>
    simp only [build_perf_tests, Option.some.injEq] at hb
    subst hb
    simp
  | cons case rest ih =>
    simp only [build_perf_tests, Option.bind_eq_bind] at hb
    cases he : processCase ro ss nps timers case with
    | none => rw [he] at hb; simp at hb
    | some entry =>
      rw [he] at hb
      cases ht : build_perf_tests ro ss rest nps timers with
      | none => rw [ht] at hb; simp at hb
      | some tail =>
        rw [ht] at hb
        simp only [Option.some_bind, Option.pure_def, Option.some.injEq] at hb
        subst hb
        intro e hmem
        rcases List.mem_cons.mp hmem with hhead | htail
        · exact ⟨case, List.mem_cons_self _ _, by rw [← hhead] at he; exact he⟩
        · obtain ⟨c, hc, hpc⟩ := ih tail ht e htail
          exact ⟨c, List.mem_cons_of_mem _ hc, hpc⟩

/-- The keys of a built report are the configured case names in
configuration order. -/
theorem build_perf_tests_names (ro : String → ℕ → Bool)
    (ss : String → ℕ → String → List ℚ) (cases : List String) (nps : ℕ)
    (timers : List String) (report : List (String × CaseDict))
    (hb : build_perf_tests ro ss cases nps timers = some report) :
    report.map Prod.fst = cases.map (fun case => case ++ "_np" ++ toString nps) := by
  induction cases generalizing report with
  | nil =>
    simp only [build_perf_tests, Option.some.injEq] at hb
    subst hb
    simp
  | cons case rest ih =>
    simp only [build_perf_tests, Option.bind_eq_bind] at hb
    cases he : processCase ro ss nps timers case with
    | none => rw [he] at hb; simp at hb
    | some entry =>
      rw [he] at hb
      cases ht : build_perf_tests ro ss rest nps timers with
      | none => rw [ht] at hb; simp at hb
      | some tail =>
        rw [ht] at hb
        simp only [Option.some_bind, Option.pure_def, Option.some.injEq] at hb
        subst hb
        rw [List.map_cons, List.map_cons, (processCase_spec _ _ _ _ _ _ he).1,
          ih tail ht]

/-- The status-table fold renders exactly the concatenation of one row per
report entry, in report order. -/
theorem statusTabBody_eq_join (l : List (String × CaseDict)) :
    statusTabBody l = String.join (l.map fun p => statusRow p.1 p.2) := by
  simp [statusTabBody, String.join, List.foldl_map]

/-! ### Claims about the aggregator and the renderer -/

/-- C6: a case whose run outcome is failure yields the entry with no timer
key (`timers = none`) and aggregate color red, whatever the configured
timers, and `build_perf_tests` continues with the remaining cases: the
report on `case :: rest` is exactly the failed entry consed onto the
report on `rest`. -/
theorem failed_case_isolated (ro : String → ℕ → Bool)
    (ss : String → ℕ → String → List ℚ) (case : String) (rest : List String)
    (nps : ℕ) (timers : List String) (hfail : ro case nps = false) :
    processCase ro ss nps timers case =
      some (case ++ "_np" ++ toString nps,
        ⟨"Failed", Color.red, none, "Failed", Color.red⟩) ∧
    build_perf_tests ro ss (case :: rest) nps timers =
      (build_perf_tests ro ss rest nps timers).map
        (fun tail => (case ++ "_np" ++ toString nps,
          ⟨"Failed", Color.red, none, "Failed", Color.red⟩) :: tail) := by
  have hpc : processCase ro ss nps timers case =
      some (case ++ "_np" ++ toString nps,
        ⟨"Failed", Color.red, none, "Failed", Color.red⟩) := by
    simp [processCase, hfail]
  refine ⟨hpc, ?_⟩
  simp only [build_perf_tests, hpc, Option.bind_eq_bind, Option.some_bind]
  cases build_perf_tests ro ss rest nps timers <;> rfl

/-- Witness for C6: a failing case `a` followed by a case `b`. -/
theorem failed_case_isolated_witness :
    processCase (fun _ _ => false) (fun _ _ _ => []) 1 ["t"] "a" =
      some ("a" ++ "_np" ++ toString 1,
        ⟨"Failed", Color.red, none, "Failed", Color.red⟩) ∧
    build_perf_tests (fun _ _ => false) (fun _ _ _ => []) ["a", "b"] 1 ["t"] =
      (build_perf_tests (fun _ _ => false) (fun _ _ _ => []) ["b"] 1 ["t"]).map
        (fun tail => ("a" ++ "_np" ++ toString 1,
          ⟨"Failed", Color.red, none, "Failed", Color.red⟩) :: tail) :=
  failed_case_isolated (fun _ _ => false) (fun _ _ _ => []) "a" ["b"] 1 ["t"] rfl

/-- C7: a case that ran gets its timers' statuses tallied into
pass/warn/fail occurrence counts (rendered `green/yellow/red`), and its
aggregate color is red if at least one timer failed, else yellow if at
least one warned, else green; each recorded timer color is the mapped
status of `simple_perf_test` on that timer's series. -/
theorem ran_case_aggregate (ro : String → ℕ → Bool)
    (ss : String → ℕ → String → List ℚ) (nps : ℕ) (timers : List String)
    (case : String) (tds : List (String × TimerDict))
    (hran : ro case nps = true)
    (hts : processTimers ss case nps timers = some tds) :
    processCase ro ss nps timers case =
      some (case ++ "_np" ++ toString nps,
        ⟨"Passed", Color.green, some tds,
          toString (tds.countP fun p => p.2.perfTestColor == Color.green) ++ "/" ++
            toString (tds.countP fun p => p.2.perfTestColor == Color.yellow) ++ "/" ++
            toString (tds.countP fun p => p.2.perfTestColor == Color.red),
          if ∃ p ∈ tds, p.2.perfTestColor = Color.red then Color.red
          else if ∃ p ∈ tds, p.2.perfTestColor = Color.yellow then Color.yellow
          else Color.green⟩) ∧
    ∀ p ∈ tds, ∃ r, simple_perf_test (ss case nps p.1) 2 = some r ∧
      p.2.perfTestColor = colorMap r.status := by
  constructor
  · have hred : ((tally tds).red ≠ 0) ↔ ∃ p ∈ tds, p.2.perfTestColor = Color.red := by
      rw [tally_eq_counts, Ne, List.countP_eq_zero]
      push_neg
      simp
    have hyellow : ((tally tds).yellow ≠ 0) ↔
        ∃ p ∈ tds, p.2.perfTestColor = Color.yellow := by
      rw [tally_eq_counts, Ne, List.countP_eq_zero]
      push_neg
      simp
    simp only [processCase, hran, if_true, hts, Option.bind_eq_bind, Option.some_bind,
      Option.pure_def, Option.some.injEq]
    rw [if_congr hred rfl (if_congr hyellow rfl rfl), tally_eq_counts]
    rfl
  · intro p hp
    obtain ⟨r, hr, he⟩ := processTimers_sound ss case nps timers tds hts p hp
    exact ⟨r, hr, by rw [he]⟩

/-- Witness for C7: a ran case with an empty timer configuration. -/
theorem ran_case_aggregate_witness :
    processCase (fun _ _ => true) (fun _ _ _ => []) 1 [] "a" =
      some ("a" ++ "_np" ++ toString 1,
        ⟨"Passed", Color.green, some ([] : List (String × TimerDict)),
          toString (([] : List (String × TimerDict)).countP
              fun p => p.2.perfTestColor == Color.green) ++ "/" ++
            toString (([] : List (String × TimerDict)).countP
              fun p => p.2.perfTestColor == Color.yellow) ++ "/" ++
            toString (([] : List (String × TimerDict)).countP
              fun p => p.2.perfTestColor == Color.red),
          if ∃ p ∈ ([] : List (String × TimerDict)), p.2.perfTestColor = Color.red
            then Color.red
          else if ∃ p ∈ ([] : List (String × TimerDict)), p.2.perfTestColor = Color.yellow
            then Color.yellow
          else Color.green⟩) ∧
    ∀ p ∈ ([] : List (String × TimerDict)),
      ∃ r, simple_perf_test ((fun _ _ _ => ([] : List ℚ)) "a" 1 p.1) 2 = some r ∧
        p.2.perfTestColor = colorMap r.status :=
  ran_case_aggregate (fun _ _ => true) (fun _ _ _ => []) 1 [] "a" [] rfl rfl

/-- C9: the report's iteration order equals the configuration order (its
keys are the configured case names, suffixed, in configuration order) and
the rendered summary table is the concatenation of exactly one row per
case in that order.  The `Nodup` hypothesis marks where the association
list is a faithful model of the Python insertion-ordered dict (report keys
are unique). -/
theorem report_rows_in_config_order (ro : String → ℕ → Bool)
    (ss : String → ℕ → String → List ℚ) (cases : List String) (nps : ℕ)
    (timers : List String) (report : List (String × CaseDict))
    (_hnd : cases.Nodup)
    (hb : build_perf_tests ro ss cases nps timers = some report) :
    report.map Prod.fst = cases.map (fun case => case ++ "_np" ++ toString nps) ∧
    statusTabBody report = String.join (report.map fun p => statusRow p.1 p.2) :=
  ⟨build_perf_tests_names ro ss cases nps timers report hb,
   statusTabBody_eq_join report⟩

/-- Witness for C9 on the two-case configuration `["a", "b"]`. -/
theorem report_rows_in_config_order_witness :
    [("a" ++ "_np" ++ toString 1,
        (⟨"Failed", Color.red, none, "Failed", Color.red⟩ : CaseDict)),
     ("b" ++ "_np" ++ toString 1,
        ⟨"Failed", Color.red, none, "Failed", Color.red⟩)].map Prod.fst =
      ["a", "b"].map (fun case => case ++ "_np" ++ toString 1) ∧
    statusTabBody
        [("a" ++ "_np" ++ toString 1,
            ⟨"Failed", Color.red, none, "Failed", Color.red⟩),
         ("b" ++ "_np" ++ toString 1,
            ⟨"Failed", Color.red, none, "Failed", Color.red⟩)] =
      String.join
        ([("a" ++ "_np" ++ toString 1,
            (⟨"Failed", Color.red, none, "Failed", Color.red⟩ : CaseDict)),
          ("b" ++ "_np" ++ toString 1,
            ⟨"Failed", Color.red, none, "Failed", Color.red⟩)].map
          fun p => statusRow p.1 p.2) :=
  report_rows_in_config_order (fun _ _ => false) (fun _ _ _ => []) ["a", "b"] 1 []
    _ (by decide) rfl

/-- The subject flag accumulated by the subject-and-timer-tables loop is
the OR of the per-case flags. -/
theorem timerTabsLoop_fst (l : List (String × CaseDict)) :
    (timerTabsLoop l).1 = l.any fun p => (caseTab p.1 p.2).1 := by
  induction l with
  | nil => rfl
  | cons p rest ih =>
    cases p with
    | mk name info => simp [timerTabsLoop, List.any_cons, ih]

/-- For an entry produced by `processCase`, the renderer's subject scan
(`runTest == 'Failed'` or some red timer row) agrees with scanning the
aggregate color and the timer colors. -/
theorem caseTab_flag_iff (ro : String → ℕ → Bool)
    (ss : String → ℕ → String → List ℚ) (nps : ℕ) (timers : List String)
    (case : String) (e : String × CaseDict)
    (h : processCase ro ss nps timers case = some e) :
    ((caseTab e.1 e.2).1 = true ↔
      e.2.perfTestsColor = Color.red ∨
      ∃ tds, e.2.timers = some tds ∧ ∃ p ∈ tds, p.2.perfTestColor = Color.red) := by
  obtain ⟨-, hcase⟩ := processCase_spec ro ss nps timers case e h
  rcases hcase with hfailed | ⟨tds, -, hran⟩
  · simp [hfailed, caseTab]
  · have hne : (("Passed" : String) == "Failed") = false := by decide
    have hcount : ((tally tds).red ≠ 0) ↔ ∃ p ∈ tds, p.2.perfTestColor = Color.red := by
      rw [tally_eq_counts, Ne, List.countP_eq_zero]
      push_neg
      simp
    have hany : (tds.any fun p => p.2.perfTestColor == Color.red) = true ↔
        ∃ p ∈ tds, p.2.perfTestColor = Color.red := by
      rw [List.any_eq_true]
      simp
    simp only [hran, caseTab, hne, Bool.false_eq_true, if_false, Option.getD_some,
      Option.some.injEq]
    constructor
    · intro hf
      exact Or.inr ⟨tds, rfl, hany.mp hf⟩
    · rintro (hcol | ⟨tds2, htds2, hred⟩)
      · by_cases hr0 : (tally tds).red ≠ 0
        · exact hany.mpr (hcount.mp hr0)
        · rw [if_neg hr0] at hcol
          split_ifs at hcol
      · subst htds2
        exact hany.mpr hred

/-- C4: for any report produced by `build_perf_tests`, the rendered
subject carries the `failed` tag iff some case entry has red aggregate
color (which includes every case whose run failed) or some timer entry
anywhere in the report is red; if no red exists anywhere the subject
carries the `passed` tag. -/
theorem subject_failed_iff_red (today : String) (ro : String → ℕ → Bool)
    (ss : String → ℕ → String → List ℚ) (cases : List String) (nps : ℕ)
    (timers : List String) (report : List (String × CaseDict))
    (hb : build_perf_tests ro ss cases nps timers = some report) :
    ((build_perf_tests_html today report).1 =
        "[ALIPerfTestsFailed] Albany Land Ice Performance Tests" ↔
      ((∃ e ∈ report, e.2.perfTestsColor = Color.red) ∨
       (∃ e ∈ report, ∃ tds, e.2.timers = some tds ∧
          ∃ p ∈ tds, p.2.perfTestColor = Color.red))) ∧
    (¬ ((∃ e ∈ report, e.2.perfTestsColor = Color.red) ∨
        (∃ e ∈ report, ∃ tds, e.2.timers = some tds ∧
           ∃ p ∈ tds, p.2.perfTestColor = Color.red)) →
      (build_perf_tests_html today report).1 =
        "[ALIPerfTestsPassed] Albany Land Ice Performance Tests") := by
  have hdist : (∃ e ∈ report, (e.2.perfTestsColor = Color.red ∨
        ∃ tds, e.2.timers = some tds ∧ ∃ p ∈ tds, p.2.perfTestColor = Color.red)) ↔
      ((∃ e ∈ report, e.2.perfTestsColor = Color.red) ∨
       (∃ e ∈ report, ∃ tds, e.2.timers = some tds ∧
          ∃ p ∈ tds, p.2.perfTestColor = Color.red)) := by
    constructor
    · rintro ⟨e, he, hc | hc⟩
      · exact Or.inl ⟨e, he, hc⟩
      · exact Or.inr ⟨e, he, hc⟩
    · rintro (⟨e, he, hc⟩ | ⟨e, he, hc⟩)
      · exact ⟨e, he, Or.inl hc⟩
      · exact ⟨e, he, Or.inr hc⟩
  have hflag : (timerTabsLoop report).1 = true ↔
      (∃ e ∈ report, (e.2.perfTestsColor = Color.red ∨
        ∃ tds, e.2.timers = some tds ∧ ∃ p ∈ tds, p.2.perfTestColor = Color.red)) := by
    rw [timerTabsLoop_fst, List.any_eq_true]
    constructor
    · rintro ⟨e, he, hf⟩
      obtain ⟨c, -, hpc⟩ := build_perf_tests_mem ro ss cases nps timers report hb e he
      exact ⟨e, he, (caseTab_flag_iff ro ss nps timers c e hpc).mp hf⟩
    · rintro ⟨e, he, hcond⟩
      obtain ⟨c, -, hpc⟩ := build_perf_tests_mem ro ss cases nps timers report hb e he
      exact ⟨e, he, (caseTab_flag_iff ro ss nps timers c e hpc).mpr hcond⟩
  have hsubject : (build_perf_tests_html today report).1 =
      if (timerTabsLoop report).1 then
        "[ALIPerfTestsFailed] Albany Land Ice Performance Tests"
      else "[ALIPerfTestsPassed] Albany Land Ice Performance Tests" := by
    simp only [build_perf_tests_html]
    split <;> rfl
  rw [hsubject]
  cases hF : (timerTabsLoop report).1 with
  | false =>
    rw [hF] at hflag
    constructor
    · simp only [Bool.false_eq_true, if_false]
      constructor
      · intro heq
        exact absurd heq (by decide)
      · intro hr
        have : False := by
          have := hflag.mpr (hdist.mpr hr)
          simp at this
        exact this.elim
    · intro _
      simp
  | true =>
    rw [hF] at hflag
    constructor
    · rw [if_pos rfl]
      exact ⟨fun _ => hdist.mp (hflag.mp rfl), fun _ => rfl⟩
    · intro hnr
      exact absurd (hdist.mp (hflag.mp rfl)) hnr

/-- Witness for C4: a one-case report whose run failed. -/
theorem subject_failed_iff_red_witness :
    ((build_perf_tests_html "d"
        [("a" ++ "_np" ++ toString 1,
          (⟨"Failed", Color.red, none, "Failed", Color.red⟩ : CaseDict))]).1 =
        "[ALIPerfTestsFailed] Albany Land Ice Performance Tests" ↔
      ((∃ e ∈ [("a" ++ "_np" ++ toString 1,
            (⟨"Failed", Color.red, none, "Failed", Color.red⟩ : CaseDict))],
          e.2.perfTestsColor = Color.red) ∨
       (∃ e ∈ [("a" ++ "_np" ++ toString 1,
            (⟨"Failed", Color.red, none, "Failed", Color.red⟩ : CaseDict))],
          ∃ tds, e.2.timers = some tds ∧
            ∃ p ∈ tds, p.2.perfTestColor = Color.red))) ∧
    (¬ ((∃ e ∈ [("a" ++ "_np" ++ toString 1,
            (⟨"Failed", Color.red, none, "Failed", Color.red⟩ : CaseDict))],
          e.2.perfTestsColor = Color.red) ∨
        (∃ e ∈ [("a" ++ "_np" ++ toString 1,
            (⟨"Failed", Color.red, none, "Failed", Color.red⟩ : CaseDict))],
          ∃ tds, e.2.timers = some tds ∧
            ∃ p ∈ tds, p.2.perfTestColor = Color.red)) →
      (build_perf_tests_html "d"
        [("a" ++ "_np" ++ toString 1,
          (⟨"Failed", Color.red, none, "Failed", Color.red⟩ : CaseDict))]).1 =
        "[ALIPerfTestsPassed] Albany Land Ice Performance Tests") :=
  subject_failed_iff_red "d" (fun _ _ => false) (fun _ _ _ => []) ["a"] 1 []
    [("a" ++ "_np" ++ toString 1,
      ⟨"Failed", Color.red, none, "Failed", Color.red⟩)] rfl

end EmailReport
